import Mathlib

/-!
# Shallow embedding of the gorush push-notification core (gorush.go)

Pure Go code (validation, payload builders) is translated to Lean
functions.  Stateful pieces (the APNs client registry, the statistics
counters, the log stream) are modelled by explicit state passing: the
registry is an association list threaded through `GetAPNSClient`, the
counter increments and log records produced by one dispatcher call are
returned as part of its result.  The external wire-level libraries
(apns2, go-gcm) are opaque collaborators: their network calls appear as
oracle functions passed in as parameters, and the few library behaviours
the code relies on (payload setters, `Response.Sent()`) are modelled
directly from the library's documented semantics.
-/

namespace Gorush

/-- Platform enum value for iOS.  Modelled from the spec: the constants
`PlatFormIos`/`PlatFormAndroid` are declared in a repository file not
present here; the spec fixes the integer enum as 1=iOS, 2=Android. -/
def PlatFormIos : Int := 1

/-- Platform enum value for Android.  Modelled from the spec (see
`PlatFormIos`). -/
def PlatFormAndroid : Int := 2

/-- APNs low priority constant (`ApnsPriorityLow`). -/
def ApnsPriorityLow : Nat := 5

/-- APNs high priority constant (`ApnsPriorityHigh`). -/
def ApnsPriorityHigh : Nat := 10

/-- `D map[string]interface{}`: custom key/value data.  The values are
opaque JSON values, modelled as strings (the core never inspects them,
it only copies them). -/
abbrev D : Type := List (String × String)

/-- `Alert` — the structured iOS alert sub-object of a request. -/
structure Alert where
  Action : String := ""
  ActionLocKey : String := ""
  Body : String := ""
  LaunchImage : String := ""
  LocArgs : List String := []
  LocKey : String := ""
  Title : String := ""
  TitleLocArgs : List String := []
  TitleLocKey : String := ""
deriving DecidableEq

/-- `gcm.Notification` — the Android notification sub-object (external
go-gcm struct; only the fields the core touches are modelled). -/
structure GcmNotification where
  Title : String := ""
  Body : String := ""
  Sound : String := ""
deriving DecidableEq

/-- `PushNotification` — a single notification request. -/
structure PushNotification where
  -- Common
  Tokens : List String := []
  Platform : Int := 0
  Message : String := ""
  Title : String := ""
  Priority : String := ""
  ContentAvailable : Bool := false
  Sound : String := ""
  Data : D := []
  AppID : String := ""
  -- Android
  APIKey : String := ""
  To : String := ""
  CollapseKey : String := ""
  DelayWhileIdle : Bool := false
  TimeToLive : Option Nat := none
  RestrictedPackageName : String := ""
  DryRun : Bool := false
  Notification : GcmNotification := {}
  -- iOS
  Expiration : Int := 0
  ApnsID : String := ""
  Topic : String := ""
  Badge : Int := 0
  Category : String := ""
  URLArgs : List String := []
  Alert : Alert := {}
deriving DecidableEq

/-- `RequestPush` — a request carrying several notifications. -/
structure RequestPush where
  Notifications : List PushNotification := []
deriving DecidableEq

/-- `CheckMessage` — the pre-flight validator.  Returns `some msg` for
the first failing check (the Go function returns `errors.New(msg)`) and
`none` when the notification is valid. -/
def CheckMessage (req : PushNotification) : Option String :=
  if req.Message = "" then
    some "the message must not be empty"
  else if req.Tokens.length = 0 then
    some "the message must specify at least one registration ID"
  else if (req.Tokens.length : Int) = PlatFormIos ∧ (req.Tokens.headD "").length = 0 then
    -- the Go source compares the token-list length with the platform
    -- enum constant and reads `req.Tokens[0]` (safe: the list is
    -- non-empty in this branch, `headD` returns that first element)
    some "the token must not be empty"
  else if req.Platform = PlatFormAndroid ∧ req.Tokens.length > 1000 then
    some "the message may specify at most 1000 registration IDs"
  else if req.Platform = PlatFormAndroid ∧
      (∃ ttl, req.TimeToLive = some ttl ∧ (ttl < 0 ∨ 2419200 < ttl)) then
    -- `*uint` time-to-live: `*req.TimeToLive < uint(0) || uint(2419200) < *req.TimeToLive`
    some "the message's TimeToLive field must be an integer between 0 and 2419200 (4 weeks)"
  else
    none

instance (req : PushNotification) :
    Decidable (∃ ttl, req.TimeToLive = some ttl ∧ (ttl < 0 ∨ 2419200 < ttl)) := by
  cases h : req.TimeToLive with
  | none => exact .isFalse (by simp [h])
  | some t => exact decidable_of_iff (t < 0 ∨ 2419200 < t) (by simp [h])

example : CheckMessage { Message := "", Tokens := ["t"], Platform := 1 } =
    some "the message must not be empty" := by decide

example : CheckMessage { Message := "m", Tokens := [], Platform := 2 } =
    some "the message must specify at least one registration ID" := by decide

example : CheckMessage { Message := "m", Tokens := [""], Platform := 2 } =
    some "the token must not be empty" := by decide

example : CheckMessage { Message := "m", Tokens := ["a", ""], Platform := 2 } = none := by decide

example :
    CheckMessage { Message := "m", Tokens := ["t"], Platform := 2, TimeToLive := some 2419201 } =
    some "the message's TimeToLive field must be an integer between 0 and 2419200 (4 weeks)" := by
  decide

example :
    CheckMessage { Message := "m", Tokens := ["t"], Platform := 2, TimeToLive := some 2419200 } =
    none := by decide

/-! ## Application configuration (config.SectionApp etc., consumed read-only) -/

/-- iOS sub-configuration of one application. -/
structure SectionIos where
  Enabled : Bool := false
  KeyPath : String := ""
  Password : String := ""
  Production : Bool := false
deriving DecidableEq

/-- Android sub-configuration of one application. -/
structure SectionAndroid where
  Enabled : Bool := false
  APIKey : String := ""
deriving DecidableEq

/-- One application's configuration entry. -/
structure SectionApp where
  Ios : SectionIos := {}
  Android : SectionAndroid := {}
deriving DecidableEq

/-- The `Apps` map of the loaded configuration (`PushConf.Apps`),
modelled as an association list keyed by application identity. -/
structure ConfYaml where
  Apps : List (String × SectionApp) := []
deriving DecidableEq

/-- Go map read `PushConf.Apps[AppID]` together with its presence bit:
`none` when the key is absent. -/
def ConfYaml.find (conf : ConfYaml) (appID : String) : Option SectionApp :=
  conf.Apps.lookup appID

/-- Go map read `PushConf.Apps[AppID]` alone: an absent key yields the
zero value of `SectionApp`. -/
def ConfYaml.app (conf : ConfYaml) (appID : String) : SectionApp :=
  (conf.find appID).getD {}

/-- `AppNameDefault` — identity used when a notification names no app. -/
def AppNameDefault : String := "default"

/-! ## APNs connection registry -/

/-- `filepath.Ext` applied to the reversed character list of the last
path element seen so far: scanning from the end of the path, the
extension is everything from the final dot, and there is none once a
path separator is crossed. -/
def extOfRev (acc : List Char) : List Char → String
  | [] => ""
  | c :: rest =>
    if c = '.' then String.mk ('.' :: acc)
    else if c = '/' then ""
    else extOfRev (c :: acc) rest

/-- Go `filepath.Ext`: the suffix of the last path element beginning at
its final dot, `""` when that element has no dot. -/
def filepathExt (path : String) : String :=
  extOfRev [] path.data.reverse

example : filepathExt "certs/app.p12" = ".p12" := by decide
example : filepathExt "certs/app.old.pem" = ".pem" := by decide
example : filepathExt "certs.d/app" = "" := by decide

/-- An APNs client handle (`*apns.Client`): the decoded certificate it
was built from and which endpoint it is bound to. -/
structure ApnsClient where
  certificate : String
  production : Bool
deriving DecidableEq

/-- The certificate-decoding collaborators (`certificate.FromP12File`,
`certificate.FromPemFile`): oracles from key path and password to a
decoded certificate or an error. -/
structure ApnsEnv where
  fromP12File : String → String → Except String String
  fromPemFile : String → String → Except String String

/-- `initAPNSClient` — builds an APNs client for one application
identity.  Returns the `(client, error)` pair of the Go function: both
`nil` when iOS is not enabled for the application, `(nil, err)` when the
certificate cannot be decoded (unknown extension included), and a client
bound to the production or development endpoint otherwise. -/
def initAPNSClient (env : ApnsEnv) (conf : ConfYaml) (AppID : String) :
    Option ApnsClient × Option String :=
  if (conf.app AppID).Ios.Enabled then
    let ext := filepathExt (conf.app AppID).Ios.KeyPath
    let certOrErr : Except String String :=
      if ext = ".p12" then
        env.fromP12File (conf.app AppID).Ios.KeyPath (conf.app AppID).Ios.Password
      else if ext = ".pem" then
        env.fromPemFile (conf.app AppID).Ios.KeyPath (conf.app AppID).Ios.Password
      else
        .error "Wrong Certificate key extension."
    match certOrErr with
    | .error e => (none, some e)
    | .ok cert =>
      if (conf.app AppID).Ios.Production then (some ⟨cert, true⟩, none)
      else (some ⟨cert, false⟩, none)
  else
    (none, none)

/-- The registry state: the `apnsClients.clients` map.  A stored value
of `none` is a cached nil pointer (Go stores `*apns.Client`, which can
be nil), distinct from an absent key. -/
abbrev ApnsCache : Type := List (String × Option ApnsClient)

/-- Result of one `GetAPNSClient` call: the returned `(client, error)`
pair, the registry state afterwards, and whether this call ran
`initAPNSClient` (`constructed`).  The double-checked locking of the Go
function collapses, in this sequential model, to a single presence
check. -/
structure GetResult where
  client : Option ApnsClient
  err : Option String
  cache : ApnsCache
  constructed : Bool
deriving DecidableEq

/-- `GetAPNSClient` — returns the cached client when the identity is
present (error `nil`), otherwise constructs one and stores whatever the
construction returned, its client pointer nil or not. -/
def GetAPNSClient (env : ApnsEnv) (conf : ConfYaml) (cache : ApnsCache) (AppID : String) :
    GetResult :=
  match List.lookup AppID cache with
  | some client => ⟨client, none, cache, false⟩
  | none =>
    let res := initAPNSClient env conf AppID
    ⟨res.1, res.2, (AppID, res.1) :: cache, true⟩

/-! ## Enqueueing (`queueNotification`)

The bounded channel is modelled as the list of enqueued notifications in
send order; the `StatStorage.AddTotalCount` increment is the `count`
component of the result (the function also returns that count in Go). -/

/-- One iteration of the `queueNotification` loop: default the app
identity, drop the notification when the identity is unknown or its
platform is disabled, otherwise enqueue it and add its token count. -/
def queueNotificationStep (conf : ConfYaml) (acc : List PushNotification × Nat)
    (notification : PushNotification) : List PushNotification × Nat :=
  let notification :=
    if notification.AppID = "" then { notification with AppID := AppNameDefault }
    else notification
  match conf.find notification.AppID with
  | none => acc
  | some app =>
    let skip : Bool :=
      if notification.Platform = PlatFormIos then !app.Ios.Enabled
      else if notification.Platform = PlatFormAndroid then !app.Android.Enabled
      else false
    if skip then acc
    else (acc.1 ++ [notification], acc.2 + notification.Tokens.length)

/-- `queueNotification` — the enqueued notifications and the total
accepted count (tokens of enqueued notifications), by which the
total-accepted counter is incremented once at the end. -/
def queueNotification (conf : ConfYaml) (req : RequestPush) : List PushNotification × Nat :=
  req.Notifications.foldl (queueNotificationStep conf) ([], 0)

/-! ## Android payload builder (`GetAndroidNotification`) -/

/-- `gcm.HttpMessage` — the batched Android message (external go-gcm
struct; fields the core sets). -/
structure GcmHttpMessage where
  To : String := ""
  CollapseKey : String := ""
  ContentAvailable : Bool := false
  DelayWhileIdle : Bool := false
  TimeToLive : Option Nat := none
  RestrictedPackageName : String := ""
  DryRun : Bool := false
  Priority : String := ""
  RegistrationIds : List String := []
  Data : D := []
  Notification : GcmNotification := {}
deriving DecidableEq

/-- `GetAndroidNotification` — builds the batched GCM message: copies
the shared fields and the token list, sets high priority when requested,
copies the custom data when non-empty, attaches the notification
sub-object, falls back to the request message when the sub-object body
is empty, and overrides title and sound when the request carries one. -/
def GetAndroidNotification (req : PushNotification) : GcmHttpMessage :=
  let notification : GcmHttpMessage :=
    { To := req.To
      CollapseKey := req.CollapseKey
      ContentAvailable := req.ContentAvailable
      DelayWhileIdle := req.DelayWhileIdle
      TimeToLive := req.TimeToLive
      RestrictedPackageName := req.RestrictedPackageName
      DryRun := req.DryRun }
  let notification := { notification with RegistrationIds := req.Tokens }
  let notification :=
    if req.Priority.length > 0 ∧ req.Priority = "high" then
      { notification with Priority := "high" }
    else notification
  let notification :=
    if req.Data.length > 0 then { notification with Data := req.Data }
    else notification
  let notification := { notification with Notification := req.Notification }
  let notification :=
    if notification.Notification.Body.length = 0 then
      { notification with Notification := { notification.Notification with Body := req.Message } }
    else notification
  let notification :=
    if req.Title.length > 0 then
      { notification with Notification := { notification.Notification with Title := req.Title } }
    else notification
  let notification :=
    if req.Sound.length > 0 then
      { notification with Notification := { notification.Notification with Sound := req.Sound } }
    else notification
  notification

example :
    (GetAndroidNotification { Message := "m", Tokens := ["a"], Platform := 2 }).Notification =
      { Body := "m" } := by decide

example :
    (GetAndroidNotification { Message := "m", Title := "T", Tokens := ["a"], Platform := 2, Notification := { Title := "old", Body := "b" } }).Notification =
      { Title := "T", Body := "b" } := by decide

/-! ## iOS payload builder (`GetIOSNotification`)

The apns2 payload library is an external collaborator; its builder is
modelled from its documented semantics: `Alert(s)` stores a plain string
alert, each `AlertXxx`/`Category` setter first forces the alert to be a
dictionary (replacing a plain string alert by an empty dictionary) and
then sets its field, the remaining setters each set one payload field. -/

/-- The alert dictionary of an apns2 payload. -/
structure AlertDict where
  action : String := ""
  actionLocKey : String := ""
  body : String := ""
  launchImage : String := ""
  locArgs : List String := []
  locKey : String := ""
  title : String := ""
  titleLocArgs : List String := []
  titleLocKey : String := ""
deriving DecidableEq

/-- The `aps.alert` value: either a plain string or a dictionary. -/
inductive ApsAlert where
  | str (s : String)
  | dict (d : AlertDict)
deriving DecidableEq

/-- The apns2 `Payload`: the `aps` fields the core sets plus the custom
key/value entries. -/
structure Payload where
  alert : Option ApsAlert := none
  badge : Option Int := none
  sound : String := ""
  contentAvailable : Bool := false
  category : String := ""
  urlArgs : Option (List String) := none
  custom : D := []
deriving DecidableEq

/-- apns2's `payload.alert()`: the current alert dictionary, an empty
one when the alert is absent or a plain string. -/
def Payload.alertDict (p : Payload) : AlertDict :=
  match p.alert with
  | some (.dict d) => d
  | _ => {}

/-- Update the alert dictionary of a payload, forcing a dictionary alert
(this is what every apns2 `AlertXxx` setter does). -/
def Payload.withAlertDict (p : Payload) (f : AlertDict → AlertDict) : Payload :=
  { p with alert := some (.dict (f p.alertDict)) }

/-- `iosAlertDictionary` — applies the alert-dictionary fields of the
request that are non-empty, then the category. -/
def iosAlertDictionary (p : Payload) (req : PushNotification) : Payload :=
  let p := if req.Title.length > 0 then p.withAlertDict (fun d => { d with title := req.Title }) else p
  let p := if req.Alert.TitleLocKey.length > 0 then p.withAlertDict (fun d => { d with titleLocKey := req.Alert.TitleLocKey }) else p
  let p := if req.Alert.LocArgs.length > 0 then p.withAlertDict (fun d => { d with locArgs := req.Alert.LocArgs }) else p
  let p := if req.Alert.TitleLocArgs.length > 0 then p.withAlertDict (fun d => { d with titleLocArgs := req.Alert.TitleLocArgs }) else p
  let p := if req.Alert.Body.length > 0 then p.withAlertDict (fun d => { d with body := req.Alert.Body }) else p
  let p := if req.Alert.LaunchImage.length > 0 then p.withAlertDict (fun d => { d with launchImage := req.Alert.LaunchImage }) else p
  let p := if req.Alert.LocKey.length > 0 then p.withAlertDict (fun d => { d with locKey := req.Alert.LocKey }) else p
  let p := if req.Alert.Action.length > 0 then p.withAlertDict (fun d => { d with action := req.Alert.Action }) else p
  let p := if req.Alert.ActionLocKey.length > 0 then p.withAlertDict (fun d => { d with actionLocKey := req.Alert.ActionLocKey }) else p
  let p := if req.Category.length > 0 then { p with category := req.Category } else p
  p

/-- The `apns.Notification` handed to the client: identifiers, optional
expiration (absent unless the request's expiration is positive),
priority and payload. -/
structure ApnsNotification where
  ApnsID : String := ""
  Topic : String := ""
  DeviceToken : String := ""
  Expiration : Option Int := none
  Priority : Nat := 0
  Payload : Payload := {}
deriving DecidableEq

/-- `GetIOSNotification` — builds the APNs notification: sets the
identifiers, the expiration when positive, low priority for "normal",
starts the payload from the plain-string alert carrying the message, and
applies each optional field only when non-empty/non-zero. -/
def GetIOSNotification (req : PushNotification) : ApnsNotification :=
  let notification : ApnsNotification := { ApnsID := req.ApnsID, Topic := req.Topic }
  let notification :=
    if req.Expiration > 0 then { notification with Expiration := some req.Expiration }
    else notification
  let notification :=
    if req.Priority.length > 0 ∧ req.Priority = "normal" then
      { notification with Priority := ApnsPriorityLow }
    else notification
  let p : Payload := { alert := some (.str req.Message) }
  let p := if req.Badge > 0 then { p with badge := some req.Badge } else p
  let p := if req.Sound.length > 0 then { p with sound := req.Sound } else p
  let p := if req.ContentAvailable then { p with contentAvailable := true } else p
  let p := if req.URLArgs.length > 0 then { p with urlArgs := some req.URLArgs } else p
  let p := req.Data.foldl (fun p kv => { p with custom := p.custom ++ [kv] }) p
  let p := iosAlertDictionary p req
  { notification with Payload := p }

example :
    (GetIOSNotification { Message := "hello", Tokens := ["t"], Platform := 1 }).Payload =
      { alert := some (.str "hello") } := by decide

example :
    (GetIOSNotification { Message := "hello", Title := "T", Tokens := ["t"], Platform := 1 }).Payload.alert =
      some (.dict { title := "T" }) := by decide

/-! ## Structured push log (`LogPush`) -/

/-- The outcome tag of a log record (`SucceededPush` / `FailedPush`). -/
inductive LogStatus where
  | succeededPush
  | failedPush
deriving DecidableEq

/-- One structured log record emitted by `LogPush`: outcome tag, the
destination token, and the error detail (absent on success).  The
originating notification is also logged in Go but carries no extra
information here. -/
structure PushLog where
  status : LogStatus
  token : String
  err : Option String
deriving DecidableEq

/-! ## iOS dispatcher (`PushToIOS`) -/

/-- Outcome of one `apnsClient.Push` call: a transport/protocol error
(`err != nil`), or a response with its status code and reason string.
apns2's `Response.Sent()` is `StatusCode == 200`. -/
inductive ApnsResult where
  | transportError (e : String)
  | response (statusCode : Nat) (reason : String)
deriving DecidableEq

/-- Whether a push outcome was a transport/protocol error. -/
def ApnsResult.isTransportError : ApnsResult → Bool
  | .transportError _ => true
  | .response _ _ => false

/-- apns2 `Response.Sent()`: status code 200. -/
def resSent (statusCode : Nat) : Bool :=
  statusCode == 200

/-- Running state of the `PushToIOS` token loop: the `isError` flag, the
iOS success/error counter increments so far, and the log records emitted
so far. -/
structure IOSLoopState where
  isError : Bool := false
  iosSuccess : Nat := 0
  iosError : Nat := 0
  logs : List PushLog := []
deriving DecidableEq

/-- One iteration of the `PushToIOS` token loop: set the device token on
the shared notification, push it, and classify the outcome.  A transport
error sets `isError`, logs and counts a failure; a non-200 response logs
the reason and counts a failure (without touching `isError`); a sent
response logs and counts a success. -/
def pushToIOSStep (push : ApnsNotification → ApnsResult) (base : ApnsNotification)
    (s : IOSLoopState) (token : String) : IOSLoopState :=
  match push { base with DeviceToken := token } with
  | .transportError e =>
    { s with isError := true
             iosError := s.iosError + 1
             logs := s.logs ++ [⟨.failedPush, token, some e⟩] }
  | .response statusCode reason =>
    if statusCode ≠ 200 then
      { s with iosError := s.iosError + 1
               logs := s.logs ++ [⟨.failedPush, token, some reason⟩] }
    else if resSent statusCode then
      { s with iosSuccess := s.iosSuccess + 1
               logs := s.logs ++ [⟨.succeededPush, token, none⟩] }
    else s

/-- Result of one `PushToIOS` call: the returned boolean and the counter
increments and log records it produced. -/
structure IOSPushResult where
  returned : Bool
  iosSuccess : Nat
  iosError : Nat
  logs : List PushLog
deriving DecidableEq

/-- `PushToIOS` — builds the payload, and with the `(client, error)`
pair obtained from the registry: on a registry error, logs one failure
with an empty token and returns `true`; otherwise walks the token list
sequentially with `pushToIOSStep` and returns the final `isError` flag.
The network call is the oracle `push`. -/
def PushToIOS (push : ApnsNotification → ApnsResult)
    (clientRes : Option ApnsClient × Option String) (req : PushNotification) : IOSPushResult :=
  let notification := GetIOSNotification req
  match clientRes.2 with
  | some e => ⟨true, 0, 0, [⟨.failedPush, "", some e⟩]⟩
  | none =>
    let s := req.Tokens.foldl (pushToIOSStep push notification) {}
    ⟨s.isError, s.iosSuccess, s.iosError, s.logs⟩

/-! ## Android dispatcher (`PushToAndroid`) -/

/-- One entry of the per-token result list of a GCM response
(`gcm.Result`; only the error string is read by the core). -/
structure GcmResult where
  Error : String := ""
deriving DecidableEq

/-- A completed GCM batch response: aggregate success and failure counts
and the per-token result list, positionally aligned with the submitted
token list. -/
structure GcmResponse where
  Success : Nat := 0
  Failure : Nat := 0
  Results : List GcmResult := []
deriving DecidableEq

/-- Outcome of the single `gcm.SendHttp` batch call: a transport error
or a completed response. -/
inductive GcmOutcome where
  | sendError (e : String)
  | sendOk (res : GcmResponse)
deriving DecidableEq

/-- Result of one `PushToAndroid` call: the returned boolean and the
counter increments and per-token log records it produced. -/
structure AndroidPushResult where
  returned : Bool
  androidSuccess : Nat
  androidError : Nat
  logs : List PushLog
deriving DecidableEq

/-- The per-token log records of a completed batch call: for each result
entry, a failure record with that token and error string when the entry
carries an error, a success record otherwise (`req.Tokens[k]` modelled
by `getD`; the result list is positionally aligned with the tokens). -/
def androidResultLogs (req : PushNotification) (results : List GcmResult) : List PushLog :=
  results.enum.map fun kr =>
    if kr.2.Error ≠ "" then ⟨.failedPush, req.Tokens.getD kr.1 "", some kr.2.Error⟩
    else ⟨.succeededPush, req.Tokens.getD kr.1 "", none⟩

/-- `PushToAndroid` — re-validates the notification and returns `false`
on a validation error; builds the batch message and performs the single
network call (the oracle `send`); returns `false` on a transport error;
on a completed call increments the Android counters from the aggregate
counts, logs one record per result entry, and returns `true`. -/
def PushToAndroid (send : GcmHttpMessage → GcmOutcome) (req : PushNotification) :
    AndroidPushResult :=
  match CheckMessage req with
  | some _ => ⟨false, 0, 0, []⟩
  | none =>
    let notification := GetAndroidNotification req
    match send notification with
    | .sendError _ => ⟨false, 0, 0, []⟩
    | .sendOk res => ⟨true, res.Success, res.Failure, androidResultLogs req res.Results⟩

/-! ## Theorems -/

/-- A string has length zero exactly when it is the empty string. -/
theorem string_length_eq_zero_iff (s : String) : s.length = 0 ↔ s = "" := by
  constructor
  · intro h
    cases s with
    | mk data =>
      have hd : data = [] := List.length_eq_zero.mp h
      subst hd
      rfl
  · intro h
    subst h
    rfl

/-- C3: for a notification with a non-empty message, `CheckMessage`
returns the error "the token must not be empty" exactly when the
token-list length equals the iOS platform enum value (1) and the first
token is the empty string — the check never reads the platform field —
and for a token list of any other length an empty first token is never
rejected by this check. -/
theorem checkMessage_token_empty_iff (req : PushNotification) (h : req.Message ≠ "") :
    (CheckMessage req = some "the token must not be empty" ↔
      ((req.Tokens.length : Int) = PlatFormIos ∧ req.Tokens.headD "" = "")) ∧
    (req.Tokens.length ≠ 1 → CheckMessage req ≠ some "the token must not be empty") := by
  have main : CheckMessage req = some "the token must not be empty" ↔
      ((req.Tokens.length : Int) = PlatFormIos ∧ req.Tokens.headD "" = "") := by
    unfold CheckMessage
    split_ifs with h1 h2 h3 h4 h5
    · exact absurd h1 h
    · refine iff_of_false (by decide) fun hc => ?_
      have h6 := hc.1
      simp only [PlatFormIos] at h6
      omega
    · exact iff_of_true rfl ⟨h3.1, (string_length_eq_zero_iff _).mp h3.2⟩
    · exact iff_of_false (by decide)
        fun hc => h3 ⟨hc.1, (string_length_eq_zero_iff _).mpr hc.2⟩
    · exact iff_of_false (by decide)
        fun hc => h3 ⟨hc.1, (string_length_eq_zero_iff _).mpr hc.2⟩
    · exact iff_of_false (by simp)
        fun hc => h3 ⟨hc.1, (string_length_eq_zero_iff _).mpr hc.2⟩
  refine ⟨main, fun hne hc => ?_⟩
  have h6 := (main.mp hc).1
  simp only [PlatFormIos] at h6
  omega

/-- Witness for C3: a one-token notification with an empty token is
rejected with "the token must not be empty" even on the Android
platform. -/
theorem checkMessage_token_empty_iff_witness :
    CheckMessage { Message := "m", Tokens := [""], Platform := PlatFormAndroid } =
      some "the token must not be empty" :=
  (checkMessage_token_empty_iff
    { Message := "m", Tokens := [""], Platform := PlatFormAndroid } (by decide)).1.mpr
    (by decide)

/-- C6: for a notification with a non-empty message, `CheckMessage`
rejects an Android token list longer than 1000 with the
at-most-1000-registration-IDs error, and accepts a token list of length
exactly 1000 (when the time-to-live, if present, is in range). -/
theorem checkMessage_android_token_limit (req : PushNotification) (h : req.Message ≠ "") :
    (req.Platform = PlatFormAndroid → 1000 < req.Tokens.length →
      CheckMessage req = some "the message may specify at most 1000 registration IDs") ∧
    (req.Tokens.length = 1000 →
      (∀ ttl, req.TimeToLive = some ttl → ttl ≤ 2419200) →
      CheckMessage req = none) := by
  constructor
  · intro hp hlen
    unfold CheckMessage
    split_ifs with h1 h2 h3 h4 h5
    · exact absurd h1 h
    · omega
    · have h6 := h3.1
      simp only [PlatFormIos] at h6
      omega
    · rfl
    · exact absurd ⟨hp, hlen⟩ h4
    · exact absurd ⟨hp, hlen⟩ h4
  · intro hlen httl
    unfold CheckMessage
    split_ifs with h1 h2 h3 h4 h5
    · exact absurd h1 h
    · omega
    · have h6 := h3.1
      simp only [PlatFormIos] at h6
      omega
    · omega
    · obtain ⟨ttl, heq, hbad⟩ := h5.2
      have h7 := httl ttl heq
      omega
    · rfl

/-- Witness for C6: a valid Android notification with exactly 1000
tokens passes `CheckMessage`. -/
theorem checkMessage_android_token_limit_witness :
    CheckMessage
      { Message := "m", Tokens := List.replicate 1000 "t", Platform := PlatFormAndroid } =
      none :=
  (checkMessage_android_token_limit
      { Message := "m", Tokens := List.replicate 1000 "t", Platform := PlatFormAndroid }
      (by decide)).2
    (List.length_replicate 1000 "t")
    (fun _ httl => nomatch httl)

/-- C7: for an Android notification passing all earlier checks and
carrying a time-to-live, `CheckMessage` rejects a value above 2419200
with the range error and accepts every value up to and including the
boundary 2419200 (0 included; the field is unsigned, so no value below 0
exists). -/
theorem checkMessage_ttl_range (req : PushNotification) (ttl : Nat)
    (hmsg : req.Message ≠ "")
    (hlen0 : req.Tokens.length ≠ 0)
    (hquirk : ¬((req.Tokens.length : Int) = PlatFormIos ∧ (req.Tokens.headD "").length = 0))
    (hlimit : req.Tokens.length ≤ 1000)
    (hplat : req.Platform = PlatFormAndroid)
    (httl : req.TimeToLive = some ttl) :
    (2419200 < ttl →
      CheckMessage req =
        some "the message's TimeToLive field must be an integer between 0 and 2419200 (4 weeks)") ∧
    (ttl ≤ 2419200 → CheckMessage req = none) := by
  have hlimit' : ¬(req.Platform = PlatFormAndroid ∧ req.Tokens.length > 1000) :=
    fun hc => absurd hc.2 (by omega)
  constructor
  · intro hbig
    unfold CheckMessage
    rw [if_neg hmsg, if_neg hlen0, if_neg hquirk, if_neg hlimit',
      if_pos ⟨hplat, ttl, httl, Or.inr hbig⟩]
  · intro hsmall
    unfold CheckMessage
    rw [if_neg hmsg, if_neg hlen0, if_neg hquirk, if_neg hlimit', if_neg]
    rintro ⟨-, ttl', heq, hbad⟩
    rw [httl] at heq
    cases heq
    omega

/-- Witness for C7: an Android notification with the boundary
time-to-live 2419200 passes `CheckMessage`. -/
theorem checkMessage_ttl_range_witness :
    CheckMessage
      { Message := "m", Tokens := ["t"], Platform := PlatFormAndroid, TimeToLive := some 2419200 } =
      none :=
  (checkMessage_ttl_range
      { Message := "m", Tokens := ["t"], Platform := PlatFormAndroid, TimeToLive := some 2419200 }
      2419200 (by decide) (by decide) (by decide) (by decide) rfl rfl).2 (by decide)

/-- C8: for a notification in which only the message is set (every
optional field at its empty/zero default), the iOS payload is exactly
the plain-string alert carrying the message: no badge, sound, category,
content-available, URL-args, alert-dictionary or custom-data field is
present. -/
theorem getIOSNotification_message_only (m : String) (tokens : List String) (platform : Int) :
    (GetIOSNotification { Tokens := tokens, Platform := platform, Message := m }).Payload =
      { alert := some (.str m) } :=
  rfl

/-- C9: the batch message built by `GetAndroidNotification` carries the
notification sub-object with the request message as body exactly when
the sub-object's own body is empty (the explicit body is kept
otherwise), and with the request's top-level title exactly when that
title is non-empty (overriding any title already on the sub-object). -/
theorem getAndroidNotification_body_title (req : PushNotification) :
    (GetAndroidNotification req).Notification.Body =
      (if req.Notification.Body = "" then req.Message else req.Notification.Body) ∧
    (GetAndroidNotification req).Notification.Title =
      (if req.Title = "" then req.Notification.Title else req.Title) := by
  unfold GetAndroidNotification
  dsimp only
  split_ifs <;> simp_all [string_length_eq_zero_iff, Nat.pos_iff_ne_zero]

/-- The `isError` flag after the `PushToIOS` token loop: set exactly
when the starting flag was set or some token's push returned a
transport/protocol error (responses, 2xx or not, never set it). -/
theorem pushToIOS_foldl_isError (push : ApnsNotification → ApnsResult)
    (base : ApnsNotification) (l : List String) (s : IOSLoopState) :
    (l.foldl (pushToIOSStep push base) s).isError =
      (s.isError ||
        l.any fun t => (push { base with DeviceToken := t }).isTransportError) := by
  induction l generalizing s with
  | nil => simp
  | cons t l ih =>
    rw [List.foldl_cons, ih]
    cases hres : push { base with DeviceToken := t } with
    | transportError e =>
      simp [pushToIOSStep, hres, ApnsResult.isTransportError]
    | response statusCode reason =>
      by_cases hc : statusCode = 200 <;>
        simp [pushToIOSStep, hres, ApnsResult.isTransportError, hc, resSent, Bool.or_assoc]

/-- C1 (amended): with an obtained connection handle (registry error
nil), `PushToIOS` returns `true` iff at least one token's push returned
a transport/protocol error; a non-2xx response is logged and counted as
a failure but does not make the return value true. -/
theorem pushToIOS_returned_iff_transport (push : ApnsNotification → ApnsResult)
    (client : Option ApnsClient) (req : PushNotification) :
    (PushToIOS push (client, none) req).returned = true ↔
      ∃ t ∈ req.Tokens,
        (push { GetIOSNotification req with DeviceToken := t }).isTransportError = true := by
  have hret : (PushToIOS push (client, none) req).returned =
      (req.Tokens.foldl (pushToIOSStep push (GetIOSNotification req)) {}).isError := rfl
  rw [hret, pushToIOS_foldl_isError]
  simp [List.any_eq_true]

/-- The concrete notification of the C1 counterexample: one token, a
plain message. -/
def reqC1 : PushNotification :=
  { Message := "m", Tokens := ["t1"], Platform := PlatFormIos }

/-- The push oracle of the C1 counterexample: the server answers every
push with status 400 and reason "BadDeviceToken" (a failed delivery
attempt, but not a transport error). -/
def pushC1 : ApnsNotification → ApnsResult :=
  fun _ => .response 400 "BadDeviceToken"

/-- Claim-side predicate: a delivery attempt failed, whether by
transport/protocol error or by a non-2xx status with a reason string. -/
def deliveryAttemptFailed : ApnsResult → Bool
  | .transportError _ => true
  | .response statusCode _ => statusCode != 200

/-- C1 counterexample: with an obtained connection handle and a single
token whose delivery attempt fails with a non-2xx status, `PushToIOS`
returns `false`, so the return value is not "had at least one error" as
claimed. -/
theorem pushToIOS_returned_claim_cex :
    ¬ (((PushToIOS pushC1 (some ⟨"cert", false⟩, none) reqC1).returned = true) ↔
      ∃ t ∈ reqC1.Tokens,
        deliveryAttemptFailed (pushC1 { GetIOSNotification reqC1 with DeviceToken := t }) =
          true) := by
  decide

/-- C5: `PushToAndroid` returns `false` when the re-validation fails or
the single batch call yields a transport error, and in both cases it
increments no success/failure counter and logs no per-token outcome; on
every completed batch call it returns `true` unconditionally, however
many individual tokens failed. -/
theorem pushToAndroid_error_semantics (send : GcmHttpMessage → GcmOutcome)
    (req : PushNotification) :
    (CheckMessage req ≠ none → PushToAndroid send req = ⟨false, 0, 0, []⟩) ∧
    ((∃ e, send (GetAndroidNotification req) = .sendError e) →
      PushToAndroid send req = ⟨false, 0, 0, []⟩) ∧
    (∀ res, CheckMessage req = none → send (GetAndroidNotification req) = .sendOk res →
      (PushToAndroid send req).returned = true) := by
  refine ⟨?_, ?_, ?_⟩
  · intro h
    cases hc : CheckMessage req with
    | none => exact absurd hc h
    | some msg => simp [PushToAndroid, hc]
  · rintro ⟨e, he⟩
    cases hc : CheckMessage req with
    | none => simp [PushToAndroid, hc, he]
    | some msg => simp [PushToAndroid, hc]
  · intro res hc hs
    simp [PushToAndroid, hc, hs]

/-- The concrete notification of the C5 witness. -/
def reqC5 : PushNotification :=
  { Message := "m", Tokens := ["t1", "t2"], Platform := PlatFormAndroid }

/-- The batch-call oracle of the C5 witness: a completed call in which
one token succeeded and one failed. -/
def sendC5 : GcmHttpMessage → GcmOutcome :=
  fun _ => .sendOk { Success := 1, Failure := 1, Results := [{}, { Error := "NotRegistered" }] }

/-- Witness for C5: a completed batch call with an individual token
failure still makes `PushToAndroid` return `true`. -/
theorem pushToAndroid_error_semantics_witness :
    (PushToAndroid sendC5 reqC5).returned = true :=
  (pushToAndroid_error_semantics sendC5 reqC5).2.2
    { Success := 1, Failure := 1, Results := [{}, { Error := "NotRegistered" }] }
    (by decide) rfl

/-- `initAPNSClient` never returns both a client and an error: client
nil or error nil. -/
theorem initAPNSClient_shape (env : ApnsEnv) (conf : ConfYaml) (AppID : String) :
    (initAPNSClient env conf AppID).1 = none ∨ (initAPNSClient env conf AppID).2 = none := by
  unfold initAPNSClient
  dsimp only
  split
  · split
    · exact Or.inl rfl
    · split <;> exact Or.inr rfl
  · exact Or.inl rfl

/-- The certificate oracle of the C2 theorems: decoding always fails
(e.g. a bad certificate password). -/
def envC2 : ApnsEnv :=
  { fromP12File := fun _ _ => .error "bad password"
    fromPemFile := fun _ _ => .error "bad password" }

/-- The configuration of the C2 theorems: one application with iOS
enabled and a p12 key path. -/
def confC2 : ConfYaml :=
  { Apps := [("app1", { Ios := { Enabled := true, KeyPath := "cert.p12", Password := "pw" } })] }

/-- C2 counterexample: after a first `GetAPNSClient` call whose
construction failed, the second call for the same identity does not
re-attempt construction: it returns the cached nil client with a nil
error. -/
theorem getAPNSClient_no_retry_cex :
    (GetAPNSClient envC2 confC2 [] "app1").err = some "bad password" ∧
    (GetAPNSClient envC2 confC2 (GetAPNSClient envC2 confC2 [] "app1").cache
        "app1").constructed = false ∧
    (GetAPNSClient envC2 confC2 (GetAPNSClient envC2 confC2 [] "app1").cache
        "app1").client = none ∧
    (GetAPNSClient envC2 confC2 (GetAPNSClient envC2 confC2 [] "app1").cache
        "app1").err = none := by
  decide

/-- C2 (amended): a failed construction IS cached: the nil client is
stored under the identity, and a subsequent `GetAPNSClient` call for the
same identity does not re-attempt construction — it returns the
permanently-nil cached entry with no error. -/
theorem getAPNSClient_failure_poisons_cache (env : ApnsEnv) (conf : ConfYaml)
    (cache : ApnsCache) (AppID : String)
    (hmiss : List.lookup AppID cache = none)
    (herr : (initAPNSClient env conf AppID).2 ≠ none) :
    (GetAPNSClient env conf cache AppID).err ≠ none ∧
    (GetAPNSClient env conf (GetAPNSClient env conf cache AppID).cache
        AppID).constructed = false ∧
    (GetAPNSClient env conf (GetAPNSClient env conf cache AppID).cache
        AppID).client = none ∧
    (GetAPNSClient env conf (GetAPNSClient env conf cache AppID).cache
        AppID).err = none := by
  have hclient : (initAPNSClient env conf AppID).1 = none :=
    (initAPNSClient_shape env conf AppID).resolve_right herr
  have h1 : GetAPNSClient env conf cache AppID =
      ⟨(initAPNSClient env conf AppID).1, (initAPNSClient env conf AppID).2,
        (AppID, (initAPNSClient env conf AppID).1) :: cache, true⟩ := by
    unfold GetAPNSClient
    rw [hmiss]
  have h2 : GetAPNSClient env conf (GetAPNSClient env conf cache AppID).cache AppID =
      ⟨none, none, (GetAPNSClient env conf cache AppID).cache, false⟩ := by
    rw [h1]
    unfold GetAPNSClient
    simp [List.lookup, hclient]
  refine ⟨?_, ?_, ?_, ?_⟩
  · rw [h1]
    exact herr
  · rw [h2]
  · rw [h2]
  · rw [h2]

/-- Witness for C2 (amended): at the concrete failing environment, the
second call returns a nil client with nil error without constructing. -/
theorem getAPNSClient_failure_poisons_cache_witness :
    (GetAPNSClient envC2 confC2 (GetAPNSClient envC2 confC2 [] "app1").cache
        "app1").client = none :=
  (getAPNSClient_failure_poisons_cache envC2 confC2 [] "app1" rfl (by decide)).2.2.1

/-- C10: for an application identity whose configuration exists but does
not have iOS enabled, `GetAPNSClient` returns a nil client together with
a nil error, and a caller like `PushToIOS` handed that pair does not
take its error branch: it proceeds to the per-token send loop without a
usable client. -/
theorem getAPNSClient_ios_disabled_nil_nil (env : ApnsEnv) (conf : ConfYaml)
    (cache : ApnsCache) (AppID : String) (app : SectionApp)
    (push : ApnsNotification → ApnsResult) (req : PushNotification)
    (hfind : conf.find AppID = some app)
    (hdis : app.Ios.Enabled = false)
    (hmiss : List.lookup AppID cache = none) :
    (GetAPNSClient env conf cache AppID).client = none ∧
    (GetAPNSClient env conf cache AppID).err = none ∧
    PushToIOS push ((GetAPNSClient env conf cache AppID).client,
        (GetAPNSClient env conf cache AppID).err) req =
      (let s := req.Tokens.foldl (pushToIOSStep push (GetIOSNotification req)) {}
       ⟨s.isError, s.iosSuccess, s.iosError, s.logs⟩) := by
  have happ : conf.app AppID = app := by
    simp [ConfYaml.app, hfind]
  have hinit : initAPNSClient env conf AppID = (none, none) := by
    unfold initAPNSClient
    rw [happ, hdis]
    simp
  have hget : GetAPNSClient env conf cache AppID = ⟨none, none, (AppID, none) :: cache, true⟩ := by
    unfold GetAPNSClient
    rw [hmiss, hinit]
  refine ⟨by rw [hget], by rw [hget], ?_⟩
  rw [hget]
  rfl

/-- The certificate oracle of the C10 witness (never consulted: iOS is
disabled for the application). -/
def envC10 : ApnsEnv :=
  { fromP12File := fun _ _ => .ok "cert"
    fromPemFile := fun _ _ => .ok "cert" }

/-- The configuration of the C10 witness: the application exists but
only Android is enabled. -/
def confC10 : ConfYaml :=
  { Apps := [("appX", { Android := { Enabled := true, APIKey := "k" } })] }

/-- The push oracle of the C10 witness. -/
def pushC10 : ApnsNotification → ApnsResult :=
  fun _ => .response 200 ""

/-- The notification of the C10 witness. -/
def reqC10 : PushNotification :=
  { Message := "m", Tokens := ["t"], Platform := PlatFormIos, AppID := "appX" }

/-- Witness for C10: at the concrete iOS-disabled application,
`GetAPNSClient` yields nil client and nil error. -/
theorem getAPNSClient_ios_disabled_nil_nil_witness :
    (GetAPNSClient envC10 confC10 [] "appX").client = none ∧
    (GetAPNSClient envC10 confC10 [] "appX").err = none :=
  ⟨(getAPNSClient_ios_disabled_nil_nil envC10 confC10 [] "appX"
      { Android := { Enabled := true, APIKey := "k" } } pushC10 reqC10
      (by decide) rfl rfl).1,
    (getAPNSClient_ios_disabled_nil_nil envC10 confC10 [] "appX"
      { Android := { Enabled := true, APIKey := "k" } } pushC10 reqC10
      (by decide) rfl rfl).2.1⟩

/-- The app-identity defaulting at the head of the `queueNotification`
loop body. -/
def applyDefaultApp (n : PushNotification) : PushNotification :=
  if n.AppID = "" then { n with AppID := AppNameDefault } else n

/-- Claim-side eligibility predicate, following the spec's words: the
(defaulted) application identity exists in the configuration and the
notification's platform is enabled there. -/
def specEligible (conf : ConfYaml) (n : PushNotification) : Bool :=
  match conf.find n.AppID with
  | none => false
  | some app => if n.Platform = PlatFormIos then app.Ios.Enabled else app.Android.Enabled

/-- One `queueNotification` loop iteration, characterised by the
claim-side eligibility predicate (for the two real platform values). -/
theorem queueNotificationStep_eq (conf : ConfYaml) (acc : List PushNotification × Nat)
    (n : PushNotification)
    (hn : n.Platform = PlatFormIos ∨ n.Platform = PlatFormAndroid) :
    queueNotificationStep conf acc n =
      (if specEligible conf (applyDefaultApp n) then
        (acc.1 ++ [applyDefaultApp n], acc.2 + (applyDefaultApp n).Tokens.length)
      else acc) := by
  have hm : (applyDefaultApp n).Platform = n.Platform := by
    unfold applyDefaultApp
    split <;> rfl
  show (match conf.find (applyDefaultApp n).AppID with
      | none => acc
      | some app =>
        let skip : Bool :=
          if (applyDefaultApp n).Platform = PlatFormIos then !app.Ios.Enabled
          else if (applyDefaultApp n).Platform = PlatFormAndroid then !app.Android.Enabled
          else false
        if skip then acc
        else (acc.1 ++ [applyDefaultApp n], acc.2 + (applyDefaultApp n).Tokens.length)) = _
  unfold specEligible
  cases hfind : conf.find (applyDefaultApp n).AppID with
  | none => simp
  | some app =>
    dsimp only
    rw [hm]
    rcases hn with h1 | h1 <;> rw [h1]
    · cases happ : app.Ios.Enabled <;> simp [happ]
    · have hne : ¬(PlatFormAndroid = PlatFormIos) := by decide
      cases happ : app.Android.Enabled <;> simp [happ, hne]

/-- The `queueNotification` loop, characterised over any prefix
accumulator. -/
theorem queueNotification_foldl_spec (conf : ConfYaml) :
    ∀ (l : List PushNotification) (acc : List PushNotification × Nat),
      (∀ n ∈ l, n.Platform = PlatFormIos ∨ n.Platform = PlatFormAndroid) →
      l.foldl (queueNotificationStep conf) acc =
        (acc.1 ++ (l.map applyDefaultApp).filter (specEligible conf),
          acc.2 + (((l.map applyDefaultApp).filter (specEligible conf)).map
            fun n => n.Tokens.length).sum) := by
  intro l
  induction l with
  | nil => intro acc h; simp
  | cons n l ih =>
    intro acc h
    have hn := h n (List.mem_cons_self n l)
    have hl : ∀ m ∈ l, m.Platform = PlatFormIos ∨ m.Platform = PlatFormAndroid :=
      fun m hm => h m (List.mem_cons_of_mem n hm)
    rw [List.foldl_cons, queueNotificationStep_eq conf acc n hn]
    by_cases he : specEligible conf (applyDefaultApp n)
    · rw [if_pos he, ih _ hl]
      simp [List.filter_cons, he, List.append_assoc, Nat.add_assoc]
    · rw [if_neg he, ih _ hl]
      simp only [List.map_cons, List.filter_cons]
      rw [if_neg (by simpa using he)]

/-- C4: for every request whose notifications carry a real platform
value, exactly the notifications whose defaulted application identity
exists in the configuration with the notification's platform enabled are
enqueued (in order), and the total-accepted counter is incremented by
the sum of the token-list lengths of exactly those enqueued
notifications — a dropped notification is never enqueued and contributes
nothing. -/
theorem queueNotification_spec (conf : ConfYaml) (req : RequestPush)
    (h : ∀ n ∈ req.Notifications, n.Platform = PlatFormIos ∨ n.Platform = PlatFormAndroid) :
    (queueNotification conf req).1 =
      (req.Notifications.map applyDefaultApp).filter (specEligible conf) ∧
    (queueNotification conf req).2 =
      (((req.Notifications.map applyDefaultApp).filter (specEligible conf)).map
        fun n => n.Tokens.length).sum := by
  have hfold := queueNotification_foldl_spec conf req.Notifications ([], 0) h
  unfold queueNotification
  rw [hfold]
  simp

/-- The configuration of the C4 witness: the default application has
only iOS enabled. -/
def confC4 : ConfYaml :=
  { Apps := [("default", { Ios := { Enabled := true } })] }

/-- The request of the C4 witness: one eligible iOS notification with
two tokens, one notification for an unknown identity, and one Android
notification whose platform is disabled for the default application. -/
def reqC4 : RequestPush :=
  { Notifications :=
      [ { Message := "a", Tokens := ["t1", "t2"], Platform := PlatFormIos },
        { Message := "b", Tokens := ["u1"], Platform := PlatFormIos, AppID := "ghost" },
        { Message := "c", Tokens := ["v1"], Platform := PlatFormAndroid } ] }

/-- Witness for C4: on the concrete request, the enqueued list and the
accepted count are those of the eligible notifications only. -/
theorem queueNotification_spec_witness :
    (queueNotification confC4 reqC4).1 =
      (reqC4.Notifications.map applyDefaultApp).filter (specEligible confC4) ∧
    (queueNotification confC4 reqC4).2 =
      (((reqC4.Notifications.map applyDefaultApp).filter (specEligible confC4)).map
        fun n => n.Tokens.length).sum :=
  queueNotification_spec confC4 reqC4 (by decide)

end Gorush
